import Mathlib

/-!
Verification of the result-classification and reporting pipeline of
`mm_geo_test_logger.py` (functions `classify_error`, `get_location`,
`run_bulk_geocode`) against its natural-language specification.

The Python code is shallowly embedded: dynamic Python values that flow
through the pipeline (None, strings, numbers) are modelled by `PyVal`,
the value returned by the geocoder adapter by `AdapterResult`, and the
resolver result inspected by `classify_error` by `GeoResult`.  Python
truthiness (`if result:`, `if exception_msg:`, `all([...])`) is modelled
explicitly.  Wall-clock timestamps and durations are not modelled: no
classification decision depends on them.
-/

namespace MmGeo

/-- A dynamic Python value as it appears in candidate fields: `None`,
a string (falsy exactly when empty), or a number (falsy exactly when
zero; the distinction float/int is irrelevant to the pipeline, which
only ever tests fields for `None`-ness and truthiness). -/
inductive PyVal where
  | none
  | str (s : String)
  | num (n : Int)
deriving DecidableEq, Repr

/-- Python truthiness of a `PyVal` (`bool(v)`). -/
def pyTruthy : PyVal → Bool
  | .none => false
  | .str s => s != ""
  | .num n => n != 0

/-- Python truthiness of an optional string (`if exception_msg:`):
`None` and the empty string are falsy. -/
def msgTruthy : Option String → Bool
  | Option.none => false
  | Option.some s => s != ""

/-- `headMatch pat l` holds when `pat` is an initial segment of `l`. -/
def headMatch : List Char → List Char → Bool
  | [], _ => true
  | _ :: _, [] => false
  | a :: as, b :: bs => a == b && headMatch as bs

/-- `subMatch pat l` holds when `pat` occurs contiguously inside `l`. -/
def subMatch (pat : List Char) : List Char → Bool
  | [] => headMatch pat []
  | c :: cs => headMatch pat (c :: cs) || subMatch pat cs

/-- Python's substring test `pat in s`. -/
def strHas (s pat : String) : Bool := subMatch pat.toList s.toList

/-- The characters before the first colon (all of them when there is no
colon). -/
def beforeColon : List Char → List Char
  | [] => []
  | c :: cs => if c == ':' then [] else c :: beforeColon cs

/-- Python's `m.split(":")[0]`: the text before the first colon, or the
whole string when it has no colon. -/
def shortMsg (m : String) : String := String.mk (beforeColon m.toList)

/-- The first argument of `classify_error` (the `result` value built by
`get_location`): Python `None`, a dict with the four keys `address`,
`pcode`, `lat`, `log` (a value of `PyVal.none` covers both an absent key
and a key stored as `None`, since the code reads keys only via `.get`),
or any other non-dict value. -/
inductive GeoResult where
  | pyNone
  | pyDict (address pcode lat log : PyVal)
  | pyOther
deriving DecidableEq, Repr

/-- `classify_error(result, exception_msg)` from the source: a truthy
exception message is classified first (`Crash` when it contains
`Traceback` or `Error`, else the text before the first colon); otherwise
the result is inspected: `None returned` for `None`, `Wrong format` for
a non-dict, `Missing fields` when any of the four keys is `None`, else
`No error`. -/
def classify_error (result : GeoResult) (exception_msg : Option String) : String :=
  if msgTruthy exception_msg then
    let m := exception_msg.getD ""
    if strHas m "Traceback" || strHas m "Error" then "Crash"
    else shortMsg m
  else
    match result with
    | .pyNone => "None returned"
    | .pyOther => "Wrong format"
    | .pyDict a p la lo =>
      if a == .none || la == .none || lo == .none || p == .none then "Missing fields"
      else "No error"

/-- One element of the list returned by the adapter: a dict (read only
through `.get`, so an absent key and a `None` value coincide as
`PyVal.none`), or a non-dict element, on which `first.get(...)` raises
an `AttributeError` whose message is `msg`. -/
inductive ProviderItem where
  | dict (address pcode latitude longitude : PyVal)
  | notDict (msg : String)
deriving DecidableEq, Repr

/-- The behaviour of one call `MMGeoCoder(address).get_geolocation()`:
it raises an exception whose string is `msg`, returns `None`, returns a
non-list non-`None` value, or returns a list of items. -/
inductive AdapterResult where
  | raises (msg : String)
  | retNone
  | retOther
  | retList (items : List ProviderItem)
deriving DecidableEq, Repr

/-- The `address` value of an input row: missing (`None`/`NaN`, dropped
by `dropna` and, if handed to `get_location`, caught by `pd.isna`) or a
string. -/
inductive Addr where
  | missing
  | str (s : String)
deriving DecidableEq, Repr

/-- The pair returned by `get_location`, together with the list of
addresses actually passed to the adapter (empty exactly when the
adapter was never invoked). -/
structure ResolveOut where
  result : GeoResult
  error_msg : Option String
  calls : List String
deriving DecidableEq, Repr

/-- `get_location(address)` from the source, parameterised by the
adapter's behaviour.  Empty or missing addresses short-circuit to
`(None, "Empty input")` before the adapter is built; a raised exception
is caught and its message returned; a falsy, non-list or empty result
becomes `(None, "No result")`; otherwise the first item is projected
into the four-key dict (a non-dict first item raises inside the `try`
and is likewise caught). -/
def get_location (adapter : String → AdapterResult) (address : Addr) : ResolveOut :=
  match address with
  | .missing => ⟨.pyNone, some "Empty input", []⟩
  | .str s =>
    if s == "" then ⟨.pyNone, some "Empty input", []⟩
    else
      match adapter s with
      | .raises msg => ⟨.pyNone, some msg, [s]⟩
      | .retNone => ⟨.pyNone, some "No result", [s]⟩
      | .retOther => ⟨.pyNone, some "No result", [s]⟩
      | .retList [] => ⟨.pyNone, some "No result", [s]⟩
      | .retList (.notDict msg :: _) => ⟨.pyNone, some msg, [s]⟩
      | .retList (.dict a p la lo :: _) => ⟨.pyDict a p la lo, Option.none, [s]⟩

/-- Python truthiness of the resolver result (`if result:`): `None` is
falsy and the candidate dict, having four keys, is always truthy.
(`pyOther` never reaches the row builder — see
`get_location` — and is given the falsy default.) -/
def resTruthy : GeoResult → Bool
  | .pyDict _ _ _ _ => true
  | _ => false

/-- `result.get(k)` for the four keys used by the report loop. -/
def dictGet (r : GeoResult) (k : String) : PyVal :=
  match r with
  | .pyDict a p la lo =>
    if k == "address" then a
    else if k == "pcode" then p
    else if k == "lat" then la
    else if k == "log" then lo
    else .none
  | _ => .none

/-- The test of the missing-fields loop:
`result is None or result.get(field) is None`. -/
def rowFieldNone (result : GeoResult) (k : String) : Bool :=
  match result with
  | .pyDict _ _ _ _ => dictGet result k == .none
  | _ => true

/-- The list comprehension of the completeness label: keys, in the
order `lat, log, pcode, address`, whose value is falsy. -/
def falsyFields (result : GeoResult) : List String :=
  ["lat", "log", "pcode", "address"].filter (fun k => !pyTruthy (dictGet result k))

/-- Zero-padding of the Python format `{:04}` (wider numbers are
printed unpadded, as in Python). -/
def pad4 (n : Nat) : String :=
  let s := toString n
  if s.length < 4 then String.mk (List.replicate (4 - s.length) '0') ++ s else s

/-- The test-case identifier built from the pandas row label `idx`. -/
def tcId (idx : Nat) : String := "TC_" ++ pad4 (idx + 1)

/-- One Report Row, restricted to the fields whose value is determined
by the classification logic (timestamps, durations and the constant
`Notes` column are omitted). -/
structure ReportRow where
  test_case_id : String
  input_address : String
  returned_address : PyVal
  lat : PyVal
  log : PyVal
  pcode : PyVal
  is_format_ok : String
  missing_fields : String
  error_type : String
  exception_msg : Option String
  test_outcome : String
deriving DecidableEq, Repr

/-- The body of the report loop for one row: `idx` is the pandas row
label, `address` the input address, and `result`, `error_msg` the pair
returned by `get_location`. -/
def mkRow (idx : Nat) (address : String) (result : GeoResult) (error_msg : Option String) :
    ReportRow :=
  let returned_address := if resTruthy result then dictGet result "address" else .none
  let lat := if resTruthy result then dictGet result "lat" else .none
  let log := if resTruthy result then dictGet result "log" else .none
  let pcode := if resTruthy result then dictGet result "pcode" else .none
  let missing_list := (["address", "lat", "log", "pcode"]).filter (rowFieldNone result)
  let allTruthy := pyTruthy lat && pyTruthy log && pyTruthy pcode && pyTruthy returned_address
  let is_format_ok :=
    if resTruthy result && allTruthy then "All fields present"
    else if resTruthy result then "Missing: " ++ String.intercalate ", " (falsyFields result)
    else "Invalid or empty result"
  let error_type := classify_error result error_msg
  let test_outcome :=
    if resTruthy result && allTruthy && !msgTruthy error_msg then "Sanity check: Pass"
    else if msgTruthy error_msg then "Fail"
    else "⚠️ Partial - Needs Review"
  { test_case_id := tcId idx
    input_address := address
    returned_address := returned_address
    lat := lat
    log := log
    pcode := pcode
    is_format_ok := is_format_ok
    missing_fields := if missing_list.isEmpty then "None" else String.intercalate ", " missing_list
    error_type := error_type
    exception_msg := error_msg
    test_outcome := test_outcome }

/-- One loop iteration: resolve the address and assemble the row. -/
def buildRow (adapter : String → AdapterResult) (idx : Nat) (address : String) : ReportRow :=
  let out := get_location adapter (Addr.str address)
  mkRow idx address out.result out.error_msg

/-- `df.iterrows()` after `dropna(subset=['address'])`: the surviving
rows keep their original integer labels (pandas does not reset the
index), so each non-missing address is paired with its 0-based position
in the loaded table.  `i` is the label of the first row of the list. -/
def enumRows : Nat → List Addr → List (Nat × String)
  | _, [] => []
  | i, .missing :: rest => enumRows (i + 1) rest
  | i, .str s :: rest => (i, s) :: enumRows (i + 1) rest

/-- `drop_duplicates(subset=['address'])`: removes rows whose address
was already seen, keeping the first occurrence; labels are kept. -/
def dedupKeepFirst (seen : List String) : List (Nat × String) → List (Nat × String)
  | [] => []
  | (i, s) :: rest =>
    if seen.contains s then dedupKeepFirst seen rest
    else (i, s) :: dedupKeepFirst (s :: seen) rest

/-- The labelled rows that survive `dropna` + `drop_duplicates`. -/
def survivors (table : List Addr) : List (Nat × String) :=
  dedupKeepFirst [] (enumRows 0 table)

/-- The report loop of `run_bulk_geocode`: one row per surviving
labelled address, in order. -/
def processRows (adapter : String → AdapterResult) (table : List Addr) : List ReportRow :=
  (survivors table).map (fun p => buildRow adapter p.1 p.2)

/-- How a run of `run_bulk_geocode` ended: a missing input file (early
`return`), a missing or unsupported extension (raised `ValueError`), or
normal processing. -/
inductive RunStatus where
  | fileNotFound
  | noExtension
  | unsupportedFormat
  | ok
deriving DecidableEq, Repr

/-- The outcome of a run: its status together with the report rows it
produced (`log_rows`). -/
structure RunResult where
  status : RunStatus
  rows : List ReportRow
deriving DecidableEq, Repr

/-- `run_bulk_geocode(input_path, output_path)` from the source.
`fileExists` models `os.path.exists(input_path)`, `ext` the lowercased
extension of the input path, and `table` the `address` column of the
dataframe that reading the file would yield (reading itself is pandas
glue).  All three failure checks happen before the loop, so a failed
run carries no rows. -/
def run_bulk_geocode (fileExists : Bool) (ext : String) (table : List Addr)
    (adapter : String → AdapterResult) : RunResult :=
  if !fileExists then ⟨.fileNotFound, []⟩
  else if ext == "" then ⟨.noExtension, []⟩
  else if ext == ".csv" || ext == ".xlsx" || ext == ".xls" then ⟨.ok, processRows adapter table⟩
  else ⟨.unsupportedFormat, []⟩

/-- From the claim, for the test-outcome label: a candidate exists and
all four of its fields (address, latitude, longitude, postal code) are
truthy, i.e. non-`None`, non-empty and non-zero. -/
def candidateAllTruthy : GeoResult → Bool
  | .pyDict a p la lo => pyTruthy a && pyTruthy la && pyTruthy lo && pyTruthy p
  | _ => false

/-- From the claim (not from the code): the distinct non-empty
addresses of the loaded table, rows with a missing address dropped,
duplicate addresses removed keeping the first occurrence, listed in
first-occurrence order.  `seen` accumulates the addresses already
kept. -/
def claimAddresses (seen : List String) : List Addr → List String
  | [] => []
  | Addr.missing :: rest => claimAddresses seen rest
  | Addr.str s :: rest =>
    if s == "" || seen.contains s then claimAddresses seen rest
    else s :: claimAddresses (s :: seen) rest

/- ### Helper lemmas -/

theorem dictGet_address (a p la lo : PyVal) :
    dictGet (GeoResult.pyDict a p la lo) "address" = a := rfl

theorem dictGet_pcode (a p la lo : PyVal) :
    dictGet (GeoResult.pyDict a p la lo) "pcode" = p := rfl

theorem dictGet_lat (a p la lo : PyVal) :
    dictGet (GeoResult.pyDict a p la lo) "lat" = la := rfl

theorem dictGet_log (a p la lo : PyVal) :
    dictGet (GeoResult.pyDict a p la lo) "log" = lo := rfl

/-- The test-outcome label of a row depends only on whether a fully
truthy candidate exists and on the truthiness of the error message. -/
theorem mkRow_test_outcome (idx : Nat) (address : String) (r : GeoResult) (m : Option String) :
    (mkRow idx address r m).test_outcome =
      if candidateAllTruthy r && !msgTruthy m then "Sanity check: Pass"
      else if msgTruthy m then "Fail"
      else "⚠️ Partial - Needs Review" := by
  cases r with
  | pyNone => simp [mkRow, resTruthy, candidateAllTruthy, pyTruthy]
  | pyOther => simp [mkRow, resTruthy, candidateAllTruthy, pyTruthy]
  | pyDict a p la lo =>
    simp only [mkRow, resTruthy, candidateAllTruthy,
      dictGet_address, dictGet_pcode, dictGet_lat, dictGet_log, if_true, Bool.true_and]
    have hcond : (pyTruthy la && pyTruthy lo && pyTruthy p && pyTruthy a && !msgTruthy m)
        = (pyTruthy a && pyTruthy la && pyTruthy lo && pyTruthy p && !msgTruthy m) := by
      cases pyTruthy a <;> cases pyTruthy la <;> cases pyTruthy lo <;> cases pyTruthy p <;>
        cases msgTruthy m <;> rfl
    rw [hcond]

/-- When the error message is absent or empty, classification inspects
the result, and a result that is not a non-dict value is never labelled
`Wrong format`. -/
theorem classify_no_msg_not_wrong (r : GeoResult) (m : Option String)
    (hr : r ≠ GeoResult.pyOther) (hm : msgTruthy m = false) :
    classify_error r m ≠ "Wrong format" := by
  cases r with
  | pyNone =>
    simp only [classify_error, hm, Bool.false_eq_true, if_false]
    decide
  | pyOther => exact absurd rfl hr
  | pyDict a p la lo =>
    simp only [classify_error, hm, Bool.false_eq_true, if_false]
    split <;> decide

/-- Every pair surviving `dedupKeepFirst` over the labelled non-missing
rows carries an address not yet seen, labelled by the base label `i`
plus the position of that address's first occurrence in the rows. -/
theorem mem_dedup_enum (rows : List Addr) :
    ∀ (seen : List String) (i : Nat) (q : Nat × String),
      q ∈ dedupKeepFirst seen (enumRows i rows) →
      seen.contains q.2 = false ∧
        q.1 = i + rows.findIdx (fun a => a == Addr.str q.2) := by
  induction rows with
  | nil =>
    intro seen i q h
    simp [enumRows, dedupKeepFirst] at h
  | cons hd tl ih =>
    intro seen i q h
    cases hd with
    | missing =>
      simp only [enumRows] at h
      obtain ⟨h1, h2⟩ := ih seen (i + 1) q h
      refine ⟨h1, ?_⟩
      rw [List.findIdx_cons]
      have hne : (Addr.missing == Addr.str q.2) = false := by simp
      rw [hne]
      simp only [cond_false]
      omega
    | str t =>
      simp only [enumRows, dedupKeepFirst] at h
      by_cases hc : seen.contains t = true
      · rw [if_pos hc] at h
        obtain ⟨h1, h2⟩ := ih seen (i + 1) q h
        refine ⟨h1, ?_⟩
        have hne : q.2 ≠ t := by
          intro he
          rw [he] at h1
          rw [h1] at hc
          exact Bool.false_ne_true hc
        rw [List.findIdx_cons]
        have hb : (Addr.str t == Addr.str q.2) = false := by
          rw [beq_eq_false_iff_ne]
          intro hcon
          injection hcon with h3
          exact hne h3.symm
        rw [hb]
        simp only [cond_false]
        omega
      · rw [if_neg hc] at h
        have hcf : seen.contains t = false := by simpa using hc
        rcases List.mem_cons.mp h with he | hmem
        · subst he
          refine ⟨hcf, ?_⟩
          rw [List.findIdx_cons]
          have hb : (Addr.str t == Addr.str t) = true := by simp
          rw [hb]
          simp only [cond_true]
          omega
        · obtain ⟨h1, h2⟩ := ih (t :: seen) (i + 1) q hmem
          rw [List.contains_cons] at h1
          obtain ⟨hqt, hqs⟩ := Bool.or_eq_false_iff.mp h1
          refine ⟨hqs, ?_⟩
          rw [List.findIdx_cons]
          have hb : (Addr.str t == Addr.str q.2) = false := by
            have hne : q.2 ≠ t := beq_eq_false_iff_ne.mp hqt
            rw [beq_eq_false_iff_ne]
            intro hcon
            injection hcon with h3
            exact hne h3.symm
          rw [hb]
          simp only [cond_false]
          omega

/-- Dropping missing rows, then duplicates, and projecting the
surviving addresses yields exactly the claim-side list of distinct
addresses, provided the table has no empty-string address (a loaded
table never does: pandas renders empty cells as `NaN`). -/
theorem map_snd_dedup_enum (rows : List Addr) :
    ∀ (seen : List String) (i : Nat), Addr.str "" ∉ rows →
      (dedupKeepFirst seen (enumRows i rows)).map Prod.snd = claimAddresses seen rows := by
  induction rows with
  | nil => intro seen i _; simp [enumRows, dedupKeepFirst, claimAddresses]
  | cons hd tl ih =>
    intro seen i hne
    have hnetl : Addr.str "" ∉ tl := fun hm => hne (List.mem_cons_of_mem _ hm)
    cases hd with
    | missing =>
      simp only [enumRows, claimAddresses]
      exact ih seen (i + 1) hnetl
    | str t =>
      have ht : t ≠ "" := by
        intro he
        subst he
        exact hne (List.mem_cons_self _ _)
      have htb : (t == "") = false := beq_eq_false_iff_ne.mpr ht
      simp only [enumRows, dedupKeepFirst, claimAddresses, htb, Bool.false_or]
      by_cases hc : seen.contains t = true
      · rw [if_pos hc, if_pos hc]
        exact ih seen (i + 1) hnetl
      · rw [if_neg hc, if_neg hc, List.map_cons]
        rw [ih (t :: seen) (i + 1) hnetl]

/- ### Claims -/

/-- C1: for every input table containing no empty-string address cell
(pandas loading renders empty cells as missing), a run that reaches
processing produces exactly one Report Row per distinct non-empty
address remaining after dropping missing addresses and removing
duplicates, in first-occurrence order: the reported input addresses
are precisely that list. -/
theorem C1_one_row_per_distinct_address (fileExists : Bool) (ext : String) (table : List Addr)
    (adapter : String → AdapterResult)
    (hok : (run_bulk_geocode fileExists ext table adapter).status = RunStatus.ok)
    (hne : Addr.str "" ∉ table) :
    (run_bulk_geocode fileExists ext table adapter).rows.map ReportRow.input_address =
      claimAddresses [] table := by
  have hrows : (run_bulk_geocode fileExists ext table adapter).rows
      = processRows adapter table := by
    unfold run_bulk_geocode at hok ⊢
    split
    · simp_all
    · split
      · simp_all
      · split
        · rfl
        · simp_all
  rw [hrows]
  have hcomp : (ReportRow.input_address ∘ fun p : Nat × String => buildRow adapter p.1 p.2)
      = Prod.snd := funext fun p => rfl
  calc (processRows adapter table).map ReportRow.input_address
      = (dedupKeepFirst [] (enumRows 0 table)).map Prod.snd := by
        simp only [processRows, survivors, List.map_map, hcomp]
    _ = claimAddresses [] table := map_snd_dedup_enum table [] 0 hne

/-- C1 witness: a table with a duplicate address and a missing cell. -/
theorem C1_one_row_per_distinct_address_witness :
    (run_bulk_geocode true ".csv" [Addr.str "A", Addr.str "A", Addr.missing]
        (fun _ => AdapterResult.retNone)).rows.map ReportRow.input_address =
      claimAddresses [] [Addr.str "A", Addr.str "A", Addr.missing] :=
  C1_one_row_per_distinct_address true ".csv" [Addr.str "A", Addr.str "A", Addr.missing]
    (fun _ => AdapterResult.retNone) (by decide) (by decide)

/-- C2: the claim states that the k-th surviving address always
receives identifier `TC_` k (zero-padded).  False: the loop reads the
pandas row label, which `dropna`/`drop_duplicates` do not reset, so
when the first input row is dropped as missing, the first (and only)
surviving address receives `TC_0002`, not `TC_0001`. -/
theorem C2_sequential_ids_counterexample :
    (run_bulk_geocode true ".csv" [Addr.missing, Addr.str "A"]
        (fun _ => AdapterResult.retNone)).rows.map ReportRow.test_case_id = ["TC_0002"] ∧
      ("TC_0002" : String) ≠ "TC_0001" := ⟨by decide, by decide⟩

/-- C2 amended: each surviving address receives the identifier `TC_`
p+1 (zero-padded to 4 digits), where p is the 0-based position of that
address's first occurrence in the loaded table — not its position among
the survivors — so identifiers skip the numbers of rows dropped as
missing or duplicate. -/
theorem C2_original_index_ids (adapter : String → AdapterResult) (table : List Addr)
    (row : ReportRow) (h : row ∈ processRows adapter table) :
    row.test_case_id =
      tcId (table.findIdx (fun a => a == Addr.str row.input_address)) := by
  obtain ⟨q, hq, he⟩ := List.mem_map.mp h
  obtain ⟨h1, h2⟩ := mem_dedup_enum table [] 0 q (by simpa [survivors] using hq)
  subst he
  have e1 : (buildRow adapter q.1 q.2).test_case_id = tcId q.1 := rfl
  have e2 : (buildRow adapter q.1 q.2).input_address = q.2 := rfl
  rw [e1, e2, h2]
  simp

/-- C2 witness: the single row produced from the table whose first row
is missing. -/
theorem C2_original_index_ids_witness :
    (buildRow (fun _ => AdapterResult.retNone) 1 "A").test_case_id =
      tcId ([Addr.missing, Addr.str "A"].findIdx (fun a => a == Addr.str
        (buildRow (fun _ => AdapterResult.retNone) 1 "A").input_address)) :=
  C2_original_index_ids (fun _ => AdapterResult.retNone) [Addr.missing, Addr.str "A"]
    (buildRow (fun _ => AdapterResult.retNone) 1 "A") (by decide)



/-- C3: the claim states that a failure description
`ConnectionError: timeout` is classified as `ConnectionError` (the text
before the first colon).  False: the description contains the substring
`Error`, so the `Crash` branch fires first. -/
theorem C3_connection_error_counterexample :
    (processRows (fun _ => AdapterResult.raises "ConnectionError: timeout")
        [Addr.str "A"]).map ReportRow.error_type = ["Crash"] ∧
      ("Crash" : String) ≠ "ConnectionError" := ⟨by decide, by decide⟩

/-- C3 amended: a failure whose description is
`ConnectionError: timeout` is classified as `Crash`, because the
description contains the substring `Error`; the before-the-first-colon
rule applies only to descriptions containing neither `Traceback` nor
`Error`. -/
theorem C3_crash_label (r : GeoResult) :
    classify_error r (some "ConnectionError: timeout") = "Crash" := rfl

/-- C4: the claim states that an adapter returning `[]` or `None`
yields a recorded error classification of `None returned`.  False: the
resolver pairs that case with the failure description `No result`, and
a truthy description takes priority in `classify_error`, so the report
records `No result`. -/
theorem C4_none_returned_counterexample :
    (processRows (fun _ => AdapterResult.retNone) [Addr.str "A"]).map ReportRow.error_type
        = ["No result"] ∧
      (processRows (fun _ => AdapterResult.retList []) [Addr.str "A"]).map ReportRow.error_type
        = ["No result"] ∧
      ("No result" : String) ≠ "None returned" := ⟨by decide, by decide, by decide⟩

/-- C4 amended: whenever the adapter returns an empty list or `None`
for a (non-empty) address, the Report Row records the error
classification `No result`, which is also the recorded failure
description. -/
theorem C4_no_result_label (adapter : String → AdapterResult) (idx : Nat) (s : String)
    (hs : s ≠ "")
    (h : adapter s = AdapterResult.retNone ∨ adapter s = AdapterResult.retList []) :
    (buildRow adapter idx s).error_type = "No result" ∧
      (buildRow adapter idx s).exception_msg = some "No result" := by
  have hb : (s == "") = false := beq_eq_false_iff_ne.mpr hs
  have hout : get_location adapter (Addr.str s) = ⟨GeoResult.pyNone, some "No result", [s]⟩ := by
    rcases h with h | h <;> simp [get_location, hb, h]
  have hrow : buildRow adapter idx s = mkRow idx s GeoResult.pyNone (some "No result") := by
    simp only [buildRow, hout]
  rw [hrow]
  exact ⟨rfl, rfl⟩

/-- C4 witness: a concrete adapter that returns `None` for every
address, applied to the address `A`. -/
theorem C4_no_result_label_witness :
    (buildRow (fun _ => AdapterResult.retNone) 0 "A").error_type = "No result" ∧
      (buildRow (fun _ => AdapterResult.retNone) 0 "A").exception_msg = some "No result" :=
  C4_no_result_label (fun _ => AdapterResult.retNone) 0 "A" (by decide) (Or.inl rfl)

/-- C5: for the empty-string address and for the missing address, the
resolver returns the absence outcome with failure description
`Empty input` and performs no adapter call at all (the recorded call
trace is empty), whatever the adapter's behaviour. -/
theorem C5_empty_input_no_adapter_call (adapter : String → AdapterResult) :
    get_location adapter (Addr.str "") = ⟨GeoResult.pyNone, some "Empty input", []⟩ ∧
      get_location adapter Addr.missing = ⟨GeoResult.pyNone, some "Empty input", []⟩ :=
  ⟨rfl, rfl⟩

/-- C8: a run that ends in a whole-run failure (input file not found,
missing extension, or unsupported format) produces no report rows. -/
theorem C8_fatal_failures_no_rows (fileExists : Bool) (ext : String) (table : List Addr)
    (adapter : String → AdapterResult)
    (h : (run_bulk_geocode fileExists ext table adapter).status = RunStatus.fileNotFound ∨
        (run_bulk_geocode fileExists ext table adapter).status = RunStatus.noExtension ∨
        (run_bulk_geocode fileExists ext table adapter).status = RunStatus.unsupportedFormat) :
    (run_bulk_geocode fileExists ext table adapter).rows = [] := by
  unfold run_bulk_geocode at h ⊢
  split
  · rfl
  · split
    · rfl
    · split
      · simp_all
      · rfl

/-- C8 witness: a run on a missing input file. -/
theorem C8_fatal_failures_no_rows_witness :
    (run_bulk_geocode false ".csv" [Addr.str "A"] (fun _ => AdapterResult.retNone)).rows = [] :=
  C8_fatal_failures_no_rows false ".csv" [Addr.str "A"] (fun _ => AdapterResult.retNone)
    (Or.inl (by decide))

/-- C6: for every address and every adapter behaviour (any return
shape or a raised exception), the resolver yields a well-formed
Resolution Outcome — a candidate exactly when there is no failure
description — and an adapter exception on a usable address becomes the
absence outcome whose failure description is the exception's
message. -/
theorem C6_resolver_total_outcome (adapter : String → AdapterResult) (address : Addr) :
    ((∃ a p la lo, (get_location adapter address).result = GeoResult.pyDict a p la lo) ↔
        (get_location adapter address).error_msg = Option.none) ∧
      (∀ s m, address = Addr.str s → s ≠ "" → adapter s = AdapterResult.raises m →
        get_location adapter address = ⟨GeoResult.pyNone, some m, [s]⟩) := by
  constructor
  · cases address with
    | missing => simp [get_location]
    | str s =>
      by_cases hs : s = ""
      · subst hs; simp [get_location]
      · have hb : (s == "") = false := beq_eq_false_iff_ne.mpr hs
        cases h : adapter s with
        | raises msg => simp [get_location, hb, h]
        | retNone => simp [get_location, hb, h]
        | retOther => simp [get_location, hb, h]
        | retList items =>
          match items with
          | [] => simp [get_location, hb, h]
          | .notDict msg :: rest => simp [get_location, hb, h]
          | .dict a p la lo :: rest => simp [get_location, hb, h]
  · rintro s m rfl hs h
    have hb : (s == "") = false := beq_eq_false_iff_ne.mpr hs
    simp [get_location, hb, h]

/-- C6 witness: an adapter that raises an exception with message
`boom` on the address `X`. -/
theorem C6_resolver_total_outcome_witness :
    get_location (fun _ => AdapterResult.raises "boom") (Addr.str "X") =
      ⟨GeoResult.pyNone, some "boom", ["X"]⟩ :=
  (C6_resolver_total_outcome (fun _ => AdapterResult.raises "boom") (Addr.str "X")).2
    "X" "boom" rfl (by decide) rfl

/-- C7: the claim states that the test outcome is `Fail` exactly when a
failure description is present.  False: an adapter exception whose
message is the empty string produces an outcome that carries the
(empty) failure description, yet the row's test outcome is
`⚠️ Partial - Needs Review`, because Python's `elif error_msg:` treats
the empty string as falsy. -/
theorem C7_fail_label_counterexample :
    (processRows (fun _ => AdapterResult.raises "") [Addr.str "A"]).map
        (fun r => (r.exception_msg, r.test_outcome))
        = [(some "", "⚠️ Partial - Needs Review")] ∧
      ("⚠️ Partial - Needs Review" : String) ≠ "Fail" := ⟨by decide, by decide⟩

/-- C7 amended: the test outcome is `Sanity check: Pass` exactly when a
candidate exists with all four fields truthy and the failure
description is absent or empty; `Fail` exactly when a non-empty failure
description is present; and `⚠️ Partial - Needs Review` otherwise. -/
theorem C7_outcome_label_iff (adapter : String → AdapterResult) (idx : Nat) (s : String) :
    ((buildRow adapter idx s).test_outcome = "Sanity check: Pass" ↔
        candidateAllTruthy (get_location adapter (Addr.str s)).result = true ∧
          msgTruthy (get_location adapter (Addr.str s)).error_msg = false) ∧
      ((buildRow adapter idx s).test_outcome = "Fail" ↔
        msgTruthy (get_location adapter (Addr.str s)).error_msg = true) ∧
      ((buildRow adapter idx s).test_outcome = "⚠️ Partial - Needs Review" ↔
        candidateAllTruthy (get_location adapter (Addr.str s)).result = false ∧
          msgTruthy (get_location adapter (Addr.str s)).error_msg = false) := by
  have hrow : buildRow adapter idx s =
      mkRow idx s (get_location adapter (Addr.str s)).result
        (get_location adapter (Addr.str s)).error_msg := rfl
  rw [hrow, mkRow_test_outcome]
  cases hc : candidateAllTruthy (get_location adapter (Addr.str s)).result <;>
    cases hm : msgTruthy (get_location adapter (Addr.str s)).error_msg <;> simp

/-- C9: the claim states that `classify` never returns `Wrong format`
on a resolver result.  False as stated: an adapter exception whose
message begins with `Wrong format` is echoed through the
short-message rule (the message contains neither `Traceback` nor
`Error` and has no colon), so the report records `Wrong format`. -/
theorem C9_wrong_format_counterexample :
    (get_location (fun _ => AdapterResult.raises "Wrong format") (Addr.str "A")).result
        = GeoResult.pyNone ∧
      (processRows (fun _ => AdapterResult.raises "Wrong format") [Addr.str "A"]).map
        ReportRow.error_type = ["Wrong format"] := ⟨by decide, by decide⟩

/-- C9 amended: the non-dict branch of `classify_error` is unreachable
through the pipeline: the resolver result is never a non-dict,
non-`None` value, and whenever the failure description is absent or
empty (so that classification actually inspects the result), the label
is never `Wrong format`.  (The string itself can still arise from the
short-message rule on an adapter exception message.) -/
theorem C9_wrong_format_branch_unreachable (adapter : String → AdapterResult) (address : Addr) :
    (get_location adapter address).result ≠ GeoResult.pyOther ∧
      (msgTruthy (get_location adapter address).error_msg = false →
        classify_error (get_location adapter address).result
          (get_location adapter address).error_msg ≠ "Wrong format") := by
  have hshape : (get_location adapter address).result ≠ GeoResult.pyOther := by
    cases address with
    | missing => simp [get_location]
    | str s =>
      by_cases hs : s = ""
      · subst hs; simp [get_location]
      · have hb : (s == "") = false := beq_eq_false_iff_ne.mpr hs
        cases h : adapter s with
        | raises msg => simp [get_location, hb, h]
        | retNone => simp [get_location, hb, h]
        | retOther => simp [get_location, hb, h]
        | retList items =>
          match items with
          | [] => simp [get_location, hb, h]
          | .notDict msg :: rest => simp [get_location, hb, h]
          | .dict a p la lo :: rest => simp [get_location, hb, h]
  exact ⟨hshape, fun hm => classify_no_msg_not_wrong _ _ hshape hm⟩

/-- C9 witness: an adapter that returns a complete candidate, so the
failure description is absent and classification inspects the
result. -/
theorem C9_wrong_format_branch_unreachable_witness :
    classify_error
        (get_location
          (fun _ => AdapterResult.retList
            [ProviderItem.dict (PyVal.str "a") (PyVal.str "p") (PyVal.num 1) (PyVal.num 2)])
          (Addr.str "X")).result
        (get_location
          (fun _ => AdapterResult.retList
            [ProviderItem.dict (PyVal.str "a") (PyVal.str "p") (PyVal.num 1) (PyVal.num 2)])
          (Addr.str "X")).error_msg ≠ "Wrong format" :=
  (C9_wrong_format_branch_unreachable
    (fun _ => AdapterResult.retList
      [ProviderItem.dict (PyVal.str "a") (PyVal.str "p") (PyVal.num 1) (PyVal.num 2)])
    (Addr.str "X")).2 (by decide)

/-- C10: when the adapter's first candidate has all four fields present
(non-`None`) but at least one of them falsy (for example latitude `0`
or an empty postal code), the Report Row records `Missing Fields` as
`None` and error classification `No error`, yet the completeness label
is `Missing: ...` naming each falsy field, and the test outcome is
`⚠️ Partial - Needs Review`. -/
theorem C10_falsy_fields_partial (adapter : String → AdapterResult) (idx : Nat) (s : String)
    (a p la lo : PyVal) (rest : List ProviderItem) (hs : s ≠ "")
    (had : adapter s = AdapterResult.retList (ProviderItem.dict a p la lo :: rest))
    (ha : a ≠ PyVal.none) (hp : p ≠ PyVal.none) (hla : la ≠ PyVal.none) (hlo : lo ≠ PyVal.none)
    (hf : candidateAllTruthy (GeoResult.pyDict a p la lo) = false) :
    (buildRow adapter idx s).missing_fields = "None" ∧
      (buildRow adapter idx s).error_type = "No error" ∧
      (buildRow adapter idx s).test_outcome = "⚠️ Partial - Needs Review" ∧
      (buildRow adapter idx s).is_format_ok =
        "Missing: " ++ String.intercalate ", " (falsyFields (GeoResult.pyDict a p la lo)) ∧
      (pyTruthy la = false → "lat" ∈ falsyFields (GeoResult.pyDict a p la lo)) ∧
      (pyTruthy lo = false → "log" ∈ falsyFields (GeoResult.pyDict a p la lo)) ∧
      (pyTruthy p = false → "pcode" ∈ falsyFields (GeoResult.pyDict a p la lo)) ∧
      (pyTruthy a = false → "address" ∈ falsyFields (GeoResult.pyDict a p la lo)) := by
  have hb : (s == "") = false := beq_eq_false_iff_ne.mpr hs
  have ea : (a == PyVal.none) = false := beq_eq_false_iff_ne.mpr ha
  have ep : (p == PyVal.none) = false := beq_eq_false_iff_ne.mpr hp
  have ela : (la == PyVal.none) = false := beq_eq_false_iff_ne.mpr hla
  have elo : (lo == PyVal.none) = false := beq_eq_false_iff_ne.mpr hlo
  have hrow : buildRow adapter idx s = mkRow idx s (GeoResult.pyDict a p la lo) Option.none := by
    simp only [buildRow, get_location, hb, Bool.false_eq_true, if_false, had]
  have hall : (pyTruthy la && pyTruthy lo && pyTruthy p && pyTruthy a) = false := by
    simp only [candidateAllTruthy] at hf
    revert hf
    cases pyTruthy a <;> cases pyTruthy la <;> cases pyTruthy lo <;> cases pyTruthy p <;> decide
  refine ⟨?_, ?_, ?_, ?_, ?_, ?_, ?_, ?_⟩
  · rw [hrow]
    simp [mkRow, rowFieldNone, dictGet_address, dictGet_pcode, dictGet_lat, dictGet_log,
      ea, ep, ela, elo]
  · rw [hrow]
    simp [mkRow, classify_error, msgTruthy, ea, ep, ela, elo]
  · rw [hrow, mkRow_test_outcome, hf]
    decide
  · rw [hrow]
    simp only [mkRow, resTruthy, dictGet_address, dictGet_pcode, dictGet_lat, dictGet_log,
      if_true, Bool.true_and, hall, Bool.false_eq_true, if_false]
  · intro hfalse
    simp [falsyFields, dictGet_lat, hfalse]
  · intro hfalse
    simp [falsyFields, dictGet_log, hfalse]
  · intro hfalse
    simp [falsyFields, dictGet_pcode, hfalse]
  · intro hfalse
    simp [falsyFields, dictGet_address, hfalse]

/-- C10 witness: a candidate with latitude `0` (present but falsy). -/
theorem C10_falsy_fields_partial_witness :
    (buildRow (fun _ => AdapterResult.retList
        [ProviderItem.dict (PyVal.str "X") (PyVal.str "11000") (PyVal.num 0) (PyVal.num 961)])
        0 "X").missing_fields = "None" ∧
      (buildRow (fun _ => AdapterResult.retList
        [ProviderItem.dict (PyVal.str "X") (PyVal.str "11000") (PyVal.num 0) (PyVal.num 961)])
        0 "X").error_type = "No error" ∧
      (buildRow (fun _ => AdapterResult.retList
        [ProviderItem.dict (PyVal.str "X") (PyVal.str "11000") (PyVal.num 0) (PyVal.num 961)])
        0 "X").test_outcome = "⚠️ Partial - Needs Review" ∧
      (buildRow (fun _ => AdapterResult.retList
        [ProviderItem.dict (PyVal.str "X") (PyVal.str "11000") (PyVal.num 0) (PyVal.num 961)])
        0 "X").is_format_ok =
        "Missing: " ++ String.intercalate ", "
          (falsyFields (GeoResult.pyDict (PyVal.str "X") (PyVal.str "11000")
            (PyVal.num 0) (PyVal.num 961))) ∧
      (pyTruthy (PyVal.num 0) = false →
        "lat" ∈ falsyFields (GeoResult.pyDict (PyVal.str "X") (PyVal.str "11000")
          (PyVal.num 0) (PyVal.num 961))) ∧
      (pyTruthy (PyVal.num 961) = false →
        "log" ∈ falsyFields (GeoResult.pyDict (PyVal.str "X") (PyVal.str "11000")
          (PyVal.num 0) (PyVal.num 961))) ∧
      (pyTruthy (PyVal.str "11000") = false →
        "pcode" ∈ falsyFields (GeoResult.pyDict (PyVal.str "X") (PyVal.str "11000")
          (PyVal.num 0) (PyVal.num 961))) ∧
      (pyTruthy (PyVal.str "X") = false →
        "address" ∈ falsyFields (GeoResult.pyDict (PyVal.str "X") (PyVal.str "11000")
          (PyVal.num 0) (PyVal.num 961))) :=
  C10_falsy_fields_partial
    (fun _ => AdapterResult.retList
      [ProviderItem.dict (PyVal.str "X") (PyVal.str "11000") (PyVal.num 0) (PyVal.num 961)])
    0 "X" (PyVal.str "X") (PyVal.str "11000") (PyVal.num 0) (PyVal.num 961) []
    (by decide) rfl (by decide) (by decide) (by decide) (by decide) (by decide)

end MmGeo
